import Mathlib

/-!
Shallow embedding of the tagged-union content model of the
strawberry-pydantic-test repository (src/app/content_types.py,
src/app/schema.py, src/app/models.py).

JSON documents are modelled as `JVal` trees: the repository only ever
stores objects whose leaves are strings, integers and nulls, and Python's
`json.dumps` / `json.loads` pair is the identity on such trees, so the
serialized text column is represented by the tree itself.  Python dicts
are modelled as association lists looked up by first match (dict keys are
unique in every value the code builds).  Fallible Python code (pydantic
validation raising `ValidationError`, the `ValueError` raised by
`_to_content_json`) is modelled with `Except String`.
-/

namespace StrawberryPydantic

/-- JSON values in the fragment the repository stores: null, strings,
integers and objects. -/
inductive JVal where
  | null : JVal
  | str : String → JVal
  | int : Int → JVal
  | obj : List (String × JVal) → JVal

/-- content_types.py, `TextFormat(str, Enum)` with members MARKDOWN and
PLAIN. -/
inductive TextFormat where
  | markdown : TextFormat
  | plain : TextFormat
deriving DecidableEq

/-- String value of the str-enum member (`TextFormat.MARKDOWN.value` etc.),
used both by pydantic serialization and by `dataclasses.asdict`. -/
def TextFormat.value : TextFormat → String
  | .markdown => "markdown"
  | .plain => "plain"

/-- content_types.py, `class TextContent(BaseModel)`: `type: Literal["text"]`,
`body: str`, `format: TextFormat = TextFormat.PLAIN`.  The `type` literal is
the discriminator and is kept implicit in the constructor tag. -/
structure TextContent where
  body : String
  format : TextFormat
deriving DecidableEq

/-- content_types.py, `class ImageContent(BaseModel)`: `type: Literal["image"]`,
`url: str`, `caption: str | None = None`.  Note: the source model has NO
`dimensions` field (content_types.py defines no `ImageDimensions` class). -/
structure ImageContent where
  url : String
  caption : Option String
deriving DecidableEq

/-- content_types.py, `class LinkContent(BaseModel)`: `type: Literal["link"]`,
`url: str`, `title: str`, `description: str | None = None`. -/
structure LinkContent where
  url : String
  title : String
  description : Option String
deriving DecidableEq

/-- content_types.py, `PostContent = Annotated[Union[TextContent, ImageContent,
LinkContent], Field(discriminator="type")]`. -/
inductive PostContent where
  | text : TextContent → PostContent
  | image : ImageContent → PostContent
  | link : LinkContent → PostContent
deriving DecidableEq

/-- Serialization of an optional string field (`str | None`): pydantic dumps
`None` as JSON null. -/
def optStrJson : Option String → JVal
  | none => .null
  | some s => .str s

/-- Pydantic `model_dump_json` on a validated `PostContent` value: an object
holding the discriminator and every field, in declaration order. -/
def PostContent.model_dump_json : PostContent → JVal
  | .text t => .obj [("type", .str "text"), ("body", .str t.body),
      ("format", .str t.format.value)]
  | .image i => .obj [("type", .str "image"), ("url", .str i.url),
      ("caption", optStrJson i.caption)]
  | .link l => .obj [("type", .str "link"), ("url", .str l.url),
      ("title", .str l.title), ("description", optStrJson l.description)]

/-- Pydantic validation of a `TextFormat` field from JSON: the str-enum
accepts exactly the member values "markdown" and "plain". -/
def parseTextFormat : JVal → Option TextFormat
  | .str "markdown" => some .markdown
  | .str "plain" => some .plain
  | _ => none

/-- Pydantic validation of a required `str` field: present and a string,
otherwise a `ValidationError` naming the field. -/
def reqStrField (fs : List (String × JVal)) (k : String) : Except String String :=
  match List.lookup k fs with
  | some (.str s) => .ok s
  | some _ => .error (k ++ ": Input should be a valid string")
  | none => .error (k ++ ": Field required")

/-- Pydantic validation of an optional `str | None = None` field: absent or
null gives `None`, a string gives the string, anything else is an error. -/
def optStrField (fs : List (String × JVal)) (k : String) : Except String (Option String) :=
  match List.lookup k fs with
  | none => .ok none
  | some .null => .ok none
  | some (.str s) => .ok (some s)
  | some _ => .error (k ++ ": Input should be a valid string")

/-- Pydantic validation of `TextContent` from the fields of a JSON object:
`type` must be the literal "text", `body` a required string, `format`
defaults to PLAIN when absent; extra keys are ignored (pydantic default). -/
def validateTextContent (fs : List (String × JVal)) : Except String TextContent :=
  match List.lookup "type" fs with
  | some (.str "text") =>
    match reqStrField fs "body" with
    | .error e => .error e
    | .ok body =>
      match List.lookup "format" fs with
      | none => .ok { body := body, format := .plain }
      | some v =>
        match parseTextFormat v with
        | some f => .ok { body := body, format := f }
        | none => .error "format: Input should be markdown or plain"
  | _ => .error "type: Input should be text"

/-- Pydantic validation of `ImageContent` from the fields of a JSON object.
A `dimensions` key, when present, is an extra field and is silently ignored:
the source model declares no such field. -/
def validateImageContent (fs : List (String × JVal)) : Except String ImageContent :=
  match List.lookup "type" fs with
  | some (.str "image") =>
    match reqStrField fs "url" with
    | .error e => .error e
    | .ok url =>
      match optStrField fs "caption" with
      | .error e => .error e
      | .ok caption => .ok { url := url, caption := caption }
  | _ => .error "type: Input should be image"

/-- Pydantic validation of `LinkContent` from the fields of a JSON object. -/
def validateLinkContent (fs : List (String × JVal)) : Except String LinkContent :=
  match List.lookup "type" fs with
  | some (.str "link") =>
    match reqStrField fs "url" with
    | .error e => .error e
    | .ok url =>
      match reqStrField fs "title" with
      | .error e => .error e
      | .ok title =>
        match optStrField fs "description" with
        | .error e => .error e
        | .ok description => .ok { url := url, title := title, description := description }
  | _ => .error "type: Input should be link"

/-- Dispatch of the discriminated union on the `type` field of an object:
the registry of the three variants.  A missing, non-string or unrecognized
discriminator is a `ValidationError` (the read path surfaces it as the
corrupt-content failure). -/
def validateTagged (fs : List (String × JVal)) : Except String PostContent :=
  match List.lookup "type" fs with
  | some (.str "text") => (validateTextContent fs).map .text
  | some (.str "image") => (validateImageContent fs).map .image
  | some (.str "link") => (validateLinkContent fs).map .link
  | _ => .error "type: Input tag does not match any member of the union"

/-- `TypeAdapter(PostContent).validate_python` on a JSON value: anything but
an object is rejected, an object is dispatched by its discriminator. -/
def validatePostContent (j : JVal) : Except String PostContent :=
  match j with
  | .obj fs => validateTagged fs
  | _ => .error "Input should be a valid dictionary"

/-- The discriminator carried by the fields of a stored JSON object. -/
def fieldsDiscriminator (fs : List (String × JVal)) : Option String :=
  match List.lookup "type" fs with
  | some (.str s) => some s
  | _ => none

/-- The discriminator carried by a stored JSON value, when it has one. -/
def storedDiscriminator (j : JVal) : Option String :=
  match j with
  | .obj fs => fieldsDiscriminator fs
  | _ => none

/-- models.py: `content_json` column default is the string "{}", which
parses to the empty JSON object. -/
def defaultContentJson : JVal := .obj []

/-! The strawberry input layer (schema.py).  GraphQL coercion has already
type-checked the fields, so the inputs are typed values; `strawberry.Maybe`
fields are `Option`s (with `one_of=True` the populated field can never be an
explicit null). -/

/-- schema.py, `TextContentInput`: `body: str`, `format: TextFormat =
TextFormat.PLAIN`. -/
structure TextContentInput where
  body : String
  format : TextFormat
deriving DecidableEq

/-- Construction of a `TextContentInput` whose `format` argument was omitted
by the caller: GraphQL coercion fills in the declared default
`TextFormat.PLAIN`. -/
def TextContentInput.withDefaultFormat (body : String) : TextContentInput :=
  { body := body, format := .plain }

/-- schema.py, `ImageDimensionsInput`: `width: int`, `height: int` — plain
ints, with no positivity constraint anywhere in the source. -/
structure ImageDimensionsInput where
  width : Int
  height : Int
deriving DecidableEq

/-- schema.py, `ImageContentInput`: `url: str`, `caption: Optional[str] =
None`, `dimensions: Optional[ImageDimensionsInput] = None`. -/
structure ImageContentInput where
  url : String
  caption : Option String
  dimensions : Option ImageDimensionsInput
deriving DecidableEq

/-- schema.py, `LinkContentInput`: `url: str`, `title: str`,
`description: Optional[str] = None`. -/
structure LinkContentInput where
  url : String
  title : String
  description : Option String
deriving DecidableEq

/-- schema.py, `PostContentInput` with `@strawberry.input(one_of=True)`:
one `strawberry.Maybe` field per variant, in declaration order text, image,
link. -/
structure PostContentInput where
  text : Option TextContentInput
  image : Option ImageContentInput
  link : Option LinkContentInput
deriving DecidableEq

/-- `dataclasses.asdict` on an `ImageDimensionsInput` value. -/
def ImageDimensionsInput.asdict (d : ImageDimensionsInput) : JVal :=
  .obj [("width", .int d.width), ("height", .int d.height)]

/-- The dict built by `_to_content_json` when the `text` field is selected:
`dataclasses.asdict(maybe.value)` (fields in declaration order, the enum
member carrying its string value) followed by `data["type"] = "text"`
(insertion appends the new key). -/
def TextContentInput.data (t : TextContentInput) : JVal :=
  .obj [("body", .str t.body), ("format", .str t.format.value),
    ("type", .str "text")]

/-- The dict built by `_to_content_json` when the `image` field is selected:
note that `asdict` recurses into `dimensions`, so the dict carries a
`dimensions` key that the pydantic model will ignore. -/
def ImageContentInput.data (i : ImageContentInput) : JVal :=
  .obj [("url", .str i.url), ("caption", optStrJson i.caption),
    ("dimensions", match i.dimensions with
      | none => .null
      | some d => d.asdict),
    ("type", .str "image")]

/-- The dict built by `_to_content_json` when the `link` field is selected. -/
def LinkContentInput.data (l : LinkContentInput) : JVal :=
  .obj [("url", .str l.url), ("title", .str l.title),
    ("description", optStrJson l.description), ("type", .str "link")]

/-- The field-scan loop of `_to_content_json` (schema.py): walk the dataclass
fields in declaration order (text, image, link), and on the first non-None
field build the dict for it; when every field is None raise
`ValueError("Exactly one content type must be provided")`. -/
def PostContentInput.selectedData (c : PostContentInput) : Except String JVal :=
  match c.text with
  | some t => .ok t.data
  | none =>
    match c.image with
    | some i => .ok i.data
    | none =>
      match c.link with
      | some l => .ok l.data
      | none => .error "Exactly one content type must be provided"

/-- The validation step of the write path:
`adapter.validate_python(data)` applied to the dict of the selected field. -/
def validateInput (c : PostContentInput) : Except String PostContent :=
  match c.selectedData with
  | .error e => .error e
  | .ok d => validatePostContent d

/-- schema.py, `_to_content_json`: the selected field validated through
`TypeAdapter(PostContent)` and serialized with `model_dump_json` for the
`content_json` column. -/
def to_content_json (c : PostContentInput) : Except String JVal :=
  (validateInput c).map PostContent.model_dump_json

/-- Modelled from the spec: the exclusive-choice (GraphQL oneOf) check that
`@strawberry.input(one_of=True)` performs before the resolver runs is
strawberry library code, not part of this repository.  Per the spec,
exactly one of `text`/`image`/`link` must be non-null.  This counts the
populated fields. -/
def oneOfSelectedCount (c : PostContentInput) : Nat :=
  (if c.text.isSome then 1 else 0) + (if c.image.isSome then 1 else 0) +
    (if c.link.isSome then 1 else 0)

/-- Modelled from the spec: the full write path of `create_post` — the
oneOf input coercion (surfacing a validation error to the caller unless
exactly one variant field is populated), then `_to_content_json`. -/
def createPostContentJson (c : PostContentInput) : Except String JVal :=
  if oneOfSelectedCount c = 1 then to_content_json c
  else .error "OneOf Input Object must specify exactly one key"

/-! The derived-field computer (schema.py output types). -/

/-- Python whitespace for `str.split()` (ASCII): space, tab, newline,
carriage return, vertical tab, form feed. -/
def pyIsSpace (c : Char) : Bool :=
  c == ' ' || c == '\t' || c == '\n' || c == '\r' || c == '\x0b' || c == '\x0c'

/-- Python `str.split()` without arguments: split at whitespace, treating
runs of whitespace as one separator and producing no empty pieces — i.e.
the non-empty pieces of the splitting at every whitespace character. -/
def pySplit (s : String) : List (List Char) :=
  (s.data.splitOnP pyIsSpace).filter (fun t => t ≠ [])

/-- schema.py, `TextContentType.word_count`: `len(self.body.split())`. -/
def word_count (body : String) : Nat := (pySplit body).length

/-- schema.py, `ImageDimensionsType.aspect_ratio`:
`d = gcd(self.width, self.height); f"{self.width // d}:{self.height // d}"`.
Python floor division `//` is `Int.fdiv` and raises `ZeroDivisionError` when
`d = 0` (modelled as `none`). -/
def aspect_ratio (width height : Int) : Option String :=
  let d : Int := Int.gcd width height
  if d = 0 then none
  else some (toString (width.fdiv d) ++ ":" ++ toString (height.fdiv d))

end StrawberryPydantic

namespace StrawberryPydantic

/-- Specification-side token counter for C6: scan the characters left to
right and count the tokens, i.e. the non-whitespace characters that start
the string or follow a whitespace character (`inTok` records whether the
scan is currently inside a token). -/
def countTokens : List Char → Bool → Nat
  | [], _ => 0
  | c :: cs, inTok =>
    if pyIsSpace c then countTokens cs false
    else (if inTok then 0 else 1) + countTokens cs true

/-- Number of non-empty pieces of the whitespace splitting, with the head
piece blanked out (helper for the induction relating `pySplit` to
`countTokens`). -/
def tailTokenCount (l : List Char) : Nat :=
  (((l.splitOnP pyIsSpace).modifyHead (fun _ => [])).filter (fun t => t ≠ [])).length

theorem splitOnP_count (l : List Char) :
    ((l.splitOnP pyIsSpace).filter (fun t => t ≠ [])).length = countTokens l false ∧
    tailTokenCount l = countTokens l true := by
  induction l with
  | nil => constructor <;> rfl
  | cons c cs ih =>
    obtain ⟨ih1, ih2⟩ := ih
    by_cases hc : pyIsSpace c
    · constructor
      · rw [List.splitOnP_cons, if_pos hc]
        simpa [countTokens, hc] using ih1
      · rw [tailTokenCount, List.splitOnP_cons, if_pos hc, List.modifyHead_cons]
        simpa [countTokens, hc] using ih1
    · obtain ⟨h, t, hs⟩ := List.exists_cons_of_ne_nil (List.splitOnP_ne_nil _ cs)
      have htail : tailTokenCount cs = (t.filter (fun x => x ≠ [])).length := by
        rw [tailTokenCount, hs, List.modifyHead_cons]
        simp
      constructor
      · rw [List.splitOnP_cons, if_neg hc, hs, List.modifyHead_cons]
        have hrhs : countTokens (c :: cs) false = 1 + countTokens cs true := by
          simp [countTokens, hc]
        rw [hrhs, ← ih2, htail]
        simp [List.filter_cons]
        omega
      · rw [tailTokenCount, List.splitOnP_cons, if_neg hc, hs, List.modifyHead_cons,
          List.modifyHead_cons]
        have hrhs : countTokens (c :: cs) true = countTokens cs true := by
          simp [countTokens, hc]
        rw [hrhs, ← ih2, htail]
        simp
end StrawberryPydantic

namespace StrawberryPydantic
theorem aspect_ratio_reduced (w h : Int) (hw : 0 < w) (hh : 0 < h) :
    ∃ a b : Nat, 0 < a ∧ 0 < b ∧ Nat.Coprime a b ∧ (a : Int) * h = (b : Int) * w ∧
      aspect_ratio w h = some (toString a ++ ":" ++ toString b) := by
  obtain ⟨m, rfl⟩ : ∃ m : Nat, w = (m : Int) := ⟨w.toNat, (Int.toNat_of_nonneg hw.le).symm⟩
  obtain ⟨n, rfl⟩ : ∃ n : Nat, h = (n : Int) := ⟨h.toNat, (Int.toNat_of_nonneg hh.le).symm⟩
  have hm : 0 < m := by exact_mod_cast hw
  have hn : 0 < n := by exact_mod_cast hh
  have hgcd : Int.gcd (m : Int) (n : Int) = Nat.gcd m n := rfl
  set d := Nat.gcd m n with hd
  have hdpos : 0 < d := Nat.gcd_pos_of_pos_left n hm
  refine ⟨m / d, n / d,
    Nat.div_pos (Nat.le_of_dvd hm (Nat.gcd_dvd_left m n)) hdpos,
    Nat.div_pos (Nat.le_of_dvd hn (Nat.gcd_dvd_right m n)) hdpos,
    Nat.coprime_div_gcd_div_gcd hdpos, ?_, ?_⟩
  · obtain ⟨a, ha⟩ : d ∣ m := Nat.gcd_dvd_left m n
    obtain ⟨b, hb⟩ : d ∣ n := Nat.gcd_dvd_right m n
    have h1 : m / d = a := by
      rw [ha] ; exact Nat.mul_div_cancel_left a hdpos
    have h2 : n / d = b := by
      rw [hb] ; exact Nat.mul_div_cancel_left b hdpos
    rw [h1, h2]
    have hab : a * n = b * m := by
      rw [ha, hb] ; ring
    exact_mod_cast hab
  · have hfd : ∀ k : Nat, (k : Int).fdiv ((d : Nat) : Int) = ((k / d : Nat) : Int) := by
      intro k
      cases k with
      | zero => simp [Int.fdiv]
      | succ k => rfl
    have hts : ∀ k : Nat, toString ((k : Nat) : Int) = toString k := fun k => rfl
    rw [aspect_ratio]
    simp only [hgcd, ← hd]
    rw [if_neg (by exact_mod_cast hdpos.ne')]
    rw [hfd m, hfd n, hts, hts]
end StrawberryPydantic

namespace StrawberryPydantic

theorem validate_model_dump (c : PostContent) :
    validatePostContent c.model_dump_json = .ok c := by
  cases c with
  | text t => cases t with | mk body format => cases format <;> rfl
  | image i => cases i with | mk url caption => cases caption <;> rfl
  | link l => cases l with | mk url title description => cases description <;> rfl

theorem validate_text_data (t : TextContentInput) :
    validatePostContent t.data = .ok (.text { body := t.body, format := t.format }) := by
  cases t with | mk body format => cases format <;> rfl

theorem validate_image_data (i : ImageContentInput) :
    validatePostContent i.data = .ok (.image { url := i.url, caption := i.caption }) := by
  cases i with | mk url caption dimensions =>
    cases caption <;> cases dimensions <;> rfl

theorem validate_link_data (l : LinkContentInput) :
    validatePostContent l.data =
      .ok (.link { url := l.url, title := l.title, description := l.description }) := by
  cases l with | mk url title description => cases description <;> rfl

theorem decode_needs_known_discriminator (j : JVal)
    (h1 : storedDiscriminator j ≠ some "text")
    (h2 : storedDiscriminator j ≠ some "image")
    (h3 : storedDiscriminator j ≠ some "link") :
    ∃ e, validatePostContent j = .error e := by
  cases j with
  | null => exact ⟨_, rfl⟩
  | str s => exact ⟨_, rfl⟩
  | int n => exact ⟨_, rfl⟩
  | obj fs =>
    have hv : validatePostContent (.obj fs) = validateTagged fs := rfl
    rw [hv]
    rcases hl : List.lookup "type" fs with _ | v
    · exact ⟨_, by unfold validateTagged ; rw [hl]⟩
    · cases v with
      | null => exact ⟨_, by unfold validateTagged ; rw [hl]⟩
      | int n => exact ⟨_, by unfold validateTagged ; rw [hl]⟩
      | obj gs => exact ⟨_, by unfold validateTagged ; rw [hl]⟩
      | str s =>
        have hsd : storedDiscriminator (.obj fs) = some s := by
          have : storedDiscriminator (.obj fs) = fieldsDiscriminator fs := rfl
          rw [this] ; unfold fieldsDiscriminator ; rw [hl]
        rw [hsd] at h1 h2 h3
        have hs1 : s ≠ "text" := fun hs => h1 (by rw [hs])
        have hs2 : s ≠ "image" := fun hs => h2 (by rw [hs])
        have hs3 : s ≠ "link" := fun hs => h3 (by rw [hs])
        refine ⟨"type: Input tag does not match any member of the union", ?_⟩
        unfold validateTagged
        rw [hl]
        split
        · next heq => exact absurd (by injection heq with h ; injection h) hs1
        · next heq => exact absurd (by injection heq with h ; injection h) hs2
        · next heq => exact absurd (by injection heq with h ; injection h) hs3
        · rfl

end StrawberryPydantic

namespace StrawberryPydantic

/-- C1: for every variant input accepted by the write path, decoding the
encoded form of the validated value equals the validated value — the
serialized column produced by `_to_content_json` re-validates on the read
path to exactly the value that was validated on the write path. -/
theorem round_trip_identity (x : PostContentInput) (c : PostContent)
    (h : validateInput x = .ok c) :
    ∃ j, to_content_json x = .ok j ∧ validatePostContent j = .ok c := by
  refine ⟨c.model_dump_json, ?_, validate_model_dump c⟩
  unfold to_content_json
  rw [h]
  rfl

/-- Witness for C1 at the text input with body "Hello world". -/
theorem round_trip_identity_witness :
    ∃ j, to_content_json ⟨some ⟨"Hello world", .plain⟩, none, none⟩ = .ok j ∧
      validatePostContent j = .ok (.text ⟨"Hello world", .plain⟩) :=
  round_trip_identity ⟨some ⟨"Hello world", .plain⟩, none, none⟩
    (.text ⟨"Hello world", .plain⟩) rfl

/-- C2: the write path (exclusive-choice coercion followed by
`_to_content_json`) succeeds whenever exactly one of the text/image/link
fields is populated, and fails with an error surfaced to the caller when
zero or two-or-more are populated, whatever the populated fields hold. -/
theorem exclusive_choice_write_path :
    (∀ x : PostContentInput, oneOfSelectedCount x = 1 →
      ∃ j, createPostContentJson x = .ok j) ∧
    (∀ x : PostContentInput, oneOfSelectedCount x ≠ 1 →
      ∃ e, createPostContentJson x = .error e) := by
  constructor
  · intro x h1
    unfold createPostContentJson
    rw [if_pos h1]
    obtain ⟨xt, xi, xl⟩ := x
    cases xt with
    | some t =>
      refine ⟨(PostContent.text ⟨t.body, t.format⟩).model_dump_json, ?_⟩
      have hv : validateInput ⟨some t, xi, xl⟩ = validatePostContent t.data := rfl
      unfold to_content_json
      rw [hv, validate_text_data]
      rfl
    | none =>
      cases xi with
      | some i =>
        refine ⟨(PostContent.image ⟨i.url, i.caption⟩).model_dump_json, ?_⟩
        have hv : validateInput ⟨none, some i, xl⟩ = validatePostContent i.data := rfl
        unfold to_content_json
        rw [hv, validate_image_data]
        rfl
      | none =>
        cases xl with
        | some l =>
          refine ⟨(PostContent.link ⟨l.url, l.title, l.description⟩).model_dump_json, ?_⟩
          have hv : validateInput ⟨none, none, some l⟩ = validatePostContent l.data := rfl
          unfold to_content_json
          rw [hv, validate_link_data]
          rfl
        | none => exact absurd h1 (by decide)
  · intro x h1
    unfold createPostContentJson
    rw [if_neg h1]
    exact ⟨_, rfl⟩

/-- Witness for C2: one populated field succeeds, two populated fields fail. -/
theorem exclusive_choice_write_path_witness :
    (∃ j, createPostContentJson ⟨some ⟨"Hello world", .plain⟩, none, none⟩ = .ok j) ∧
    (∃ e, createPostContentJson ⟨some ⟨"Hello world", .plain⟩,
      some ⟨"https://example.com/img.png", none, none⟩, none⟩ = .error e) :=
  ⟨exclusive_choice_write_path.1 _ (by decide),
   exclusive_choice_write_path.2 _ (by decide)⟩

/-- C3 (code bug): the image input of the end-to-end example, with
`dimensions` width 1920 and height 1080, is accepted but its validated and
stored forms carry no dimensions at all — `ImageContent` in
content_types.py has no `dimensions` field, so pydantic drops the key and
the read-back value cannot carry an aspect ratio. -/
theorem image_dimensions_dropped :
    validateInput ⟨none, some ⟨"https://x/i.png", none, some ⟨1920, 1080⟩⟩, none⟩ =
      .ok (.image ⟨"https://x/i.png", none⟩) ∧
    to_content_json ⟨none, some ⟨"https://x/i.png", none, some ⟨1920, 1080⟩⟩, none⟩ =
      .ok (.obj [("type", .str "image"), ("url", .str "https://x/i.png"),
        ("caption", .null)]) :=
  ⟨rfl, rfl⟩

/-- C4 (code bug): no layer rejects non-positive dimensions — the write
path accepts width 0 and height 0 without any validation error — and on
such a value the derived aspect-ratio computation divides by a zero gcd. -/
theorem dimension_validation_missing :
    createPostContentJson ⟨none, some ⟨"https://x/i.png", none, some ⟨0, 0⟩⟩, none⟩ =
      .ok (.obj [("type", .str "image"), ("url", .str "https://x/i.png"),
        ("caption", .null)]) ∧
    aspect_ratio 0 0 = none :=
  ⟨rfl, rfl⟩

/-- C5: decoding any stored value whose discriminator names none of the
three registered variants fails with a validation error and never yields
any variant value. -/
theorem unknown_discriminator_decode_fails (j : JVal)
    (h1 : storedDiscriminator j ≠ some "text")
    (h2 : storedDiscriminator j ≠ some "image")
    (h3 : storedDiscriminator j ≠ some "link") :
    (∃ e, validatePostContent j = .error e) ∧
    ∀ c : PostContent, validatePostContent j ≠ .ok c := by
  obtain ⟨e, he⟩ := decode_needs_known_discriminator j h1 h2 h3
  refine ⟨⟨e, he⟩, fun c hc => ?_⟩
  rw [he] at hc
  exact Except.noConfusion hc

/-- Witness for C5 at the unrecognized discriminator "video". -/
theorem unknown_discriminator_decode_fails_witness :
    (∃ e, validatePostContent
      (.obj [("type", .str "video"), ("url", .str "https://x/v.mp4")]) = .error e) ∧
    ∀ c : PostContent, validatePostContent
      (.obj [("type", .str "video"), ("url", .str "https://x/v.mp4")]) ≠ .ok c :=
  unknown_discriminator_decode_fails _ (by decide) (by decide) (by decide)

/-- C6: `word_count` is the number of whitespace-delimited tokens of the
body — it agrees with the left-to-right token counter on every string —
and takes the specified values on the three example bodies. -/
theorem word_count_tokens :
    word_count "" = 0 ∧ word_count "Hello world" = 2 ∧ word_count "  a  b " = 2 ∧
    ∀ body : String, word_count body = countTokens body.data false :=
  ⟨rfl, rfl, rfl, fun body => (splitOnP_count body.data).1⟩

/-- C7: on positive dimensions the derived aspect ratio is the reduced
ratio string a:b with a, b coprime and a:b equal to width:height, with the
two specified example values; an image stored without dimensions decodes
without error (and carries no dimensions to derive from). -/
theorem image_aspect_ratio_derived :
    aspect_ratio 1920 1080 = some "16:9" ∧ aspect_ratio 100 100 = some "1:1" ∧
    (∀ w h : Int, 0 < w → 0 < h → ∃ a b : Nat, 0 < a ∧ 0 < b ∧ Nat.Coprime a b ∧
      (a : Int) * h = (b : Int) * w ∧
      aspect_ratio w h = some (toString a ++ ":" ++ toString b)) ∧
    ∀ url : String, validatePostContent (.obj [("type", .str "image"),
      ("url", .str url), ("caption", .null)]) = .ok (.image ⟨url, none⟩) :=
  ⟨rfl, rfl, aspect_ratio_reduced, fun _ => rfl⟩

/-- Witness for C7 at width 1920 and height 1080. -/
theorem image_aspect_ratio_derived_witness :
    ∃ a b : Nat, 0 < a ∧ 0 < b ∧ Nat.Coprime a b ∧
      (a : Int) * 1080 = (b : Int) * 1920 ∧
      aspect_ratio 1920 1080 = some (toString a ++ ":" ++ toString b) :=
  image_aspect_ratio_derived.2.2.1 1920 1080 (by decide) (by decide)

/-- C8: a text input whose format argument was omitted (so GraphQL filled
in the declared PLAIN default) is stored with format "plain" and reads
back with format PLAIN. -/
theorem text_format_default_plain (body : String) :
    to_content_json ⟨some (TextContentInput.withDefaultFormat body), none, none⟩ =
      .ok (.obj [("type", .str "text"), ("body", .str body),
        ("format", .str "plain")]) ∧
    validatePostContent (.obj [("type", .str "text"), ("body", .str body),
      ("format", .str "plain")]) = .ok (.text ⟨body, .plain⟩) :=
  ⟨rfl, rfl⟩

/-- C9: `_to_content_json` scans the oneOf fields in declaration order
(text, image, link), encodes the first populated one ignoring any later
populated fields without raising, and raises only when all three are
absent. -/
theorem to_content_json_field_order :
    (∀ x : PostContentInput, ∀ t, x.text = some t →
      to_content_json x = to_content_json ⟨some t, none, none⟩ ∧
      ∃ j, to_content_json x = .ok j) ∧
    (∀ x : PostContentInput, ∀ i, x.text = none → x.image = some i →
      to_content_json x = to_content_json ⟨none, some i, none⟩ ∧
      ∃ j, to_content_json x = .ok j) ∧
    (∀ x : PostContentInput, ∀ l, x.text = none → x.image = none → x.link = some l →
      to_content_json x = to_content_json ⟨none, none, some l⟩ ∧
      ∃ j, to_content_json x = .ok j) ∧
    to_content_json ⟨none, none, none⟩ =
      .error "Exactly one content type must be provided" := by
  refine ⟨?_, ?_, ?_, rfl⟩
  · intro x t ht
    obtain ⟨xt, xi, xl⟩ := x
    have ht2 : xt = some t := ht
    subst ht2
    refine ⟨rfl, (PostContent.text ⟨t.body, t.format⟩).model_dump_json, ?_⟩
    have hv : validateInput ⟨some t, xi, xl⟩ = validatePostContent t.data := rfl
    unfold to_content_json
    rw [hv, validate_text_data]
    rfl
  · intro x i ht hi
    obtain ⟨xt, xi, xl⟩ := x
    have ht2 : xt = none := ht
    have hi2 : xi = some i := hi
    subst ht2
    subst hi2
    refine ⟨rfl, (PostContent.image ⟨i.url, i.caption⟩).model_dump_json, ?_⟩
    have hv : validateInput ⟨none, some i, xl⟩ = validatePostContent i.data := rfl
    unfold to_content_json
    rw [hv, validate_image_data]
    rfl
  · intro x l ht hi hl
    obtain ⟨xt, xi, xl⟩ := x
    have ht2 : xt = none := ht
    have hi2 : xi = none := hi
    have hl2 : xl = some l := hl
    subst ht2
    subst hi2
    subst hl2
    refine ⟨rfl, (PostContent.link ⟨l.url, l.title, l.description⟩).model_dump_json, ?_⟩
    have hv : validateInput ⟨none, none, some l⟩ = validatePostContent l.data := rfl
    unfold to_content_json
    rw [hv, validate_link_data]
    rfl

/-- Witness for C9: with both text and image populated the result is the
encoding of the text field alone, with no error. -/
theorem to_content_json_field_order_witness :
    (to_content_json ⟨some ⟨"Hello", .plain⟩,
        some ⟨"https://example.com/img.png", none, none⟩, none⟩ =
      to_content_json ⟨some ⟨"Hello", .plain⟩, none, none⟩) ∧
    ∃ j, to_content_json ⟨some ⟨"Hello", .plain⟩,
        some ⟨"https://example.com/img.png", none, none⟩, none⟩ = .ok j :=
  to_content_json_field_order.1 _ _ rfl

/-- C10: the column default "{}" decodes to an error (no discriminator in
the empty object) and never to any variant value. -/
theorem default_content_json_decode_fails :
    validatePostContent defaultContentJson =
      .error "type: Input tag does not match any member of the union" ∧
    ∀ c : PostContent, validatePostContent defaultContentJson ≠ .ok c := by
  refine ⟨rfl, fun c hc => ?_⟩
  have h2 : (Except.error "type: Input tag does not match any member of the union" :
      Except String PostContent) = Except.ok c := hc
  exact Except.noConfusion h2

end StrawberryPydantic
